import Mathlib

/-!
# Verification of the Spezi data-exploration visualizer

Shallow embedding of `src/spezi_data_pipeline/data_exploration/data_explorer.py`:
the generic record visualizer (`DataExplorer`), the waveform visualizer
(`ECGExplorer`), the selector function (`visualizer_factory`) and the standalone
summary function (`explore_total_records_number`).

Conventions of the embedding:
* A pandas data frame is a `List Row` (rows in order); column access by name
  becomes record-field access.
* Dates and timestamps are `Int` values with the usual order (the Python code
  only compares them with `<=`/`>=`).
* Python floats are modelled as `ℚ`; numeric parsing of the whitespace-separated
  recording payload is a decimal parser into `ℚ`.
* A Python method reading and/or assigning `self.x` becomes a function taking
  the receiver and returning the (possibly updated) receiver together with the
  return value: setters return an updated record, render methods return the
  receiver they were given (the Python bodies contain no `self.x = ...`).
* Calls into matplotlib are recorded as pure data (`PlotCall`, `Figure`,
  `ECGFigure`); `print` notices are collected into a list of strings.
-/

namespace SpeziViz

/-- Module-level constant `TIME_UNIT = "sec"`. -/
def TIME_UNIT : String := "sec"

/-- Module-level constant `ECG_MICROVOLT_UNIT = "uV"`. -/
def ECG_MICROVOLT_UNIT : String := "uV"

/-- Module-level constant `ECG_MILLIVOLT_UNIT = "mV"`. -/
def ECG_MILLIVOLT_UNIT : String := "mV"

/-- Module-level constant `DEFAULT_SAMPLE_RATE_VALUE = 500`. -/
def DEFAULT_SAMPLE_RATE_VALUE : ℚ := 500

/-- Module-level constant `DEFAULT_LINE_WIDTH_VALUE = 0.5`. -/
def DEFAULT_LINE_WIDTH_VALUE : ℚ := 1/2

/-- Module-level constant `DEFAULT_AMPLITUDE_ECG = 1.8`. -/
def DEFAULT_AMPLITUDE_ECG : ℚ := 9/5

/-- Module-level constant `DEFAULT_TIME_TICKS = 0.2`. -/
def DEFAULT_TIME_TICKS : ℚ := 1/5

/-- A row of the tabular dataset, with the columns `data_explorer.py` accesses
through `ColumnNames` (`UserId`, `LoincCode`, `EffectiveDateTime`,
`QuantityName`, `QuantityUnit`, `QuantityValue`, `ECGRecording`,
`ECGRecordingUnit`, `SamplingFrequency`). -/
structure Row where
  userId : String
  loincCode : String
  effectiveDateTime : Int
  quantityName : String := ""
  quantityUnit : String := ""
  quantityValue : ℚ := 0
  ecgRecording : Option String := none
  ecgRecordingUnit : String := ""
  samplingFrequency : Option ℚ := none
deriving DecidableEq, Repr

/-- Modelled from the spec: the record-kind tag `FHIRResourceType` lives in the
flattener module (`fhir_resources_flattener`), which is not part of the source
under verification.  The spec requires a plain-observation kind, an ECG kind,
and at least one other kind value ("any other kind value raises an
unsupported-kind error"). -/
inductive FHIRResourceType where
  | OBSERVATION
  | ECG_OBSERVATION
  | QUESTIONNAIRE_RESPONSE
deriving DecidableEq, Repr

/-- Modelled from the spec: the printable name of a record kind, used by the
selector function's error message (`f"Unsupported resource type: ..."`). -/
def FHIRResourceType.name : FHIRResourceType → String
  | .OBSERVATION => "Observation"
  | .ECG_OBSERVATION => "ECGObservation"
  | .QUESTIONNAIRE_RESPONSE => "QuestionnaireResponse"

/-- `FHIRDataFrame`: the tabular dataset together with its declared record
kind (`resource_type`), as consumed by `data_explorer.py`. -/
structure FHIRDataFrame where
  df : List Row
  resource_type : FHIRResourceType
deriving DecidableEq, Repr

/-- Modelled from the spec: `select_data_by_dates` lives in
`data_processing/data_processor.py`, which is not part of the source under
verification.  Per the spec it is "a date-range row-selection utility: given
the dataset and inclusive start/end dates, returns the subset whose timestamp
column falls within range". -/
def select_data_by_dates (df : List Row) (start_date end_date : Int) : List Row :=
  df.filter fun r => decide (start_date ≤ r.effectiveDateTime ∧ r.effectiveDateTime ≤ end_date)

/-- Worker of `firstOccurrences`: keep the elements not yet `seen`, in
order. -/
def firstOccurrencesGo {α : Type} [DecidableEq α] : List α → List α → List α
  | [], _ => []
  | x :: xs, seen =>
    if seen.contains x then firstOccurrencesGo xs seen
    else x :: firstOccurrencesGo xs (x :: seen)

/-- Order-of-first-appearance deduplication, the embedding of pandas
`Series.unique()`. -/
def firstOccurrences {α : Type} [DecidableEq α] (l : List α) : List α :=
  firstOccurrencesGo l []

/-- The embedding of pandas `df.duplicated(subset=[col]).any()`: `true` iff some
value occurs at two distinct positions of the list. -/
def duplicatedAny {α : Type} [DecidableEq α] : List α → Bool
  | [] => false
  | x :: xs => xs.contains x || duplicatedAny xs

/-- One call into the plotting backend made by `plot_data_based_on_condition`:
the user label, the chosen plot type (`"scatter"` or `"bar"`) and the rows whose
`EffectiveDateTime`/`QuantityValue` columns are handed to matplotlib. -/
structure PlotCall where
  user : String
  plotType : String
  rows : List Row
deriving DecidableEq, Repr

/-- `plot_data_based_on_condition(user_df, user_id)`: scatter rendering when the
user's `EffectiveDateTime` entries contain duplicates, bar rendering otherwise;
the data frame itself is passed through to the plotting call. -/
def plot_data_based_on_condition (user_df : List Row) (user_id : String) : PlotCall :=
  if duplicatedAny (user_df.map Row.effectiveDateTime) then
    { user := user_id, plotType := "scatter", rows := user_df }
  else
    { user := user_id, plotType := "bar", rows := user_df }

/-- A rendered figure of the generic visualizer: one combined figure holding the
plot calls of every identifier in the configured list, or one individual figure
holding a single identifier's plot call. -/
inductive Figure where
  | combined (calls : List PlotCall)
  | individual (user : String) (call : PlotCall)
deriving DecidableEq, Repr

/-- The plot calls a figure holds: all of them for a combined figure, the
single one for an individual figure. -/
def Figure.calls : Figure → List PlotCall
  | .combined cs => cs
  | .individual _ c => [c]

/-- The observable outcome of a `create_static_plot` call: the returned list of
figures and the `print` notices emitted along the way. -/
structure RenderResult where
  figures : List Figure
  notices : List String
deriving DecidableEq, Repr

/-- The `DataExplorer` configuration object, fields as set by `__init__`. -/
structure DataExplorer where
  start_date : Option Int := none
  end_date : Option Int := none
  user_ids : Option (List String) := none
  y_lower : Option ℚ := none
  y_upper : Option ℚ := none
  combine_plots : Bool := true
deriving DecidableEq, Repr

/-- `DataExplorer()` with its `__init__` defaults. -/
def DataExplorer.init : DataExplorer := {}

/-- `DataExplorer.set_date_range`.  The Python method parses `"%Y-%m-%d"`
strings via `datetime.strptime` (external library, abstracted here to
pre-parsed date values; `None` stays `None`). -/
def DataExplorer.set_date_range (self : DataExplorer)
    (start_date end_date : Option Int) : DataExplorer :=
  { self with start_date := start_date, end_date := end_date }

/-- `DataExplorer.set_user_ids`. -/
def DataExplorer.set_user_ids (self : DataExplorer) (user_ids : List String) : DataExplorer :=
  { self with user_ids := some user_ids }

/-- `DataExplorer.set_y_bounds`. -/
def DataExplorer.set_y_bounds (self : DataExplorer) (y_lower y_upper : ℚ) : DataExplorer :=
  { self with y_lower := some y_lower, y_upper := some y_upper }

/-- `DataExplorer.set_combine_plots`. -/
def DataExplorer.set_combine_plots (self : DataExplorer) (combine_plots : Bool) : DataExplorer :=
  { self with combine_plots := combine_plots }

/-- The date-filtering step at the top of `create_static_plot`: when both date
bounds are set (`if self.start_date and self.end_date`), the frame is replaced
by `select_data_by_dates(...)`; otherwise it is left alone. -/
def DataExplorer.resolveDateFilter (self : DataExplorer) (input : List Row) : List Row :=
  match self.start_date, self.end_date with
  | some s, some e => select_data_by_dates input s e
  | _, _ => input

/-- `DataExplorer.plot_combined(df_loinc, users_to_plot, loinc_code)`: one
figure; for each user in `users_to_plot` the rows of `df_loinc` with that
`UserId` are handed to `plot_data_based_on_condition` (no user is skipped). -/
def DataExplorer.plot_combined (_self : DataExplorer) (df_loinc : List Row)
    (users_to_plot : List String) : Figure :=
  Figure.combined (users_to_plot.map fun user_id =>
    plot_data_based_on_condition
      (df_loinc.filter fun r => decide (r.userId = user_id)) user_id)

/-- `DataExplorer.plot_individual(df_loinc, user_id, loinc_code)`: `None` plus a
notice when the user has no rows in the group, otherwise one individual
figure. -/
def DataExplorer.plot_individual (_self : DataExplorer) (df_loinc : List Row)
    (user_id : String) (loinc_code : String) : Option Figure × List String :=
  let user_df := df_loinc.filter fun r => decide (r.userId = user_id)
  if user_df.isEmpty then
    (none,
      ["No data found for user ID " ++ user_id ++ " and LOINC code " ++ loinc_code ++ "."])
  else
    (some (Figure.individual user_id (plot_data_based_on_condition user_df user_id)), [])

/-- `DataExplorer.create_static_plot(fhir_dataframe)`.  Returned as
`(self, result)`: the method body assigns no attribute of `self`, so the
receiver comes back unchanged.  Steps, in source order: resolve the user-id
list (configured list, else the distinct `UserId`s of the unfiltered input);
date-filter when both bounds are set; short-circuit with a notice when the
(filtered) frame is empty; group by `LoincCode`; per group either one combined
figure or one figure per user with rows (with a notice for users without). -/
def DataExplorer.create_static_plot (self : DataExplorer) (input : List Row) :
    DataExplorer × RenderResult :=
  let user_ids := match self.user_ids with
    | none => firstOccurrences (input.map Row.userId)
    | some l => l
  let df := self.resolveDateFilter input
  if df.isEmpty then
    (self, { figures := [], notices := ["No data for the selected date range."] })
  else
    let loinc_codes := firstOccurrences (df.map Row.loincCode)
    let per := loinc_codes.map fun loinc_code =>
      let df_loinc := df.filter fun r => decide (r.loincCode = loinc_code)
      if self.combine_plots then
        ([self.plot_combined df_loinc user_ids], ([] : List String))
      else
        let rs := user_ids.map fun user_id =>
          self.plot_individual df_loinc user_id loinc_code
        (rs.filterMap Prod.fst, rs.flatMap Prod.snd)
    (self, { figures := per.flatMap Prod.fst, notices := per.flatMap Prod.snd })

/-! ## Waveform visualizer (`ECGExplorer`) -/

/-- Worker of `pySplit`: scan the characters, accumulating the current token
in reverse. -/
def pySplitGo : List Char → List Char → List String
  | [], acc => if acc.isEmpty then [] else [String.mk acc.reverse]
  | c :: cs, acc =>
    if c.isWhitespace then
      if acc.isEmpty then pySplitGo cs [] else String.mk acc.reverse :: pySplitGo cs []
    else pySplitGo cs (c :: acc)

/-- Python's `str.split()` with no argument: split on whitespace runs,
discarding empty pieces. -/
def pySplit (s : String) : List String :=
  pySplitGo s.toList []

/-- Parse a nonempty digit string into a `Nat`; `none` on the empty list or a
non-digit character. -/
def parseNatDigits : List Char → Option Nat
  | [] => none
  | cs =>
    cs.foldl
      (fun acc c =>
        match acc with
        | none => none
        | some n => if c.isDigit then some (10 * n + (c.toNat - 48)) else none)
      (some 0)

/-- Decimal numeral parser into `ℚ`, the embedding of
`np.array(..., dtype=float)` applied to one payload token (external numeric
parsing; modelled exactly on sign + integer part + optional fraction, which
covers every payload the module documents). -/
def parseDecimal (s : String) : Option ℚ :=
  let cs := s.toList
  let signed : Bool × List Char :=
    match cs with
    | '-' :: rest => (true, rest)
    | _ => (false, cs)
  let body := signed.2
  let intPart := body.takeWhile fun c => decide (c ≠ '.')
  let rest := body.dropWhile fun c => decide (c ≠ '.')
  let mag : Option ℚ :=
    match rest with
    | [] => (parseNatDigits intPart).map fun n => (n : ℚ)
    | '.' :: fracPart =>
      if fracPart.contains '.' then none
      else
        match parseNatDigits intPart, parseNatDigits fracPart with
        | some n, some f => some ((n : ℚ) + (f : ℚ) / (10 : ℚ) ^ fracPart.length)
        | _, _ => none
    | _ => none
  mag.map fun q => if signed.1 then -q else q

/-- `np.array(row[ECG_RECORDING].split(), dtype=float)`: split the recording
payload on whitespace and parse every token; `none` when any token fails to
parse (Python raises `ValueError`). -/
def parseRecording (payload : String) : Option (List ℚ) :=
  (pySplit payload).mapM parseDecimal

/-- The split of `plot_single_user_ecg`:
`split_length = len(ecg_array) // 3` and
`ecg_parts = [ecg_array[i*split_length : (i+1)*split_length] for i in range(3)]`. -/
def ecgParts (ecg_array : List ℚ) : List (List ℚ) :=
  let split_length := ecg_array.length / 3
  (List.range 3).map fun i => (ecg_array.drop (i * split_length)).take split_length

/-- The unit-conversion step of `plot_single_user_ecg`: divide every sample by
1000 when the row's recording unit is the microvolt unit, leave the samples
alone otherwise. -/
def convertedSamples (row : Row) (ecg_array : List ℚ) : List ℚ :=
  if row.ecgRecordingUnit = ECG_MICROVOLT_UNIT then
    ecg_array.map fun v => v / 1000
  else
    ecg_array

/-- One waveform sub-plot (`_plot_single_lead_ecg`): the samples handed to
`ax.plot`, the sample rate, and the X-axis span `len(ecg) / sample_rate`. -/
structure ECGLead where
  samples : List ℚ
  sampleRate : ℚ
  seconds : ℚ
deriving DecidableEq, Repr

/-- One figure produced per row by `plot_single_user_ecg`: three waveform
sub-plots, or the three-fold "No ECG data available" placeholder when the row
has no recording payload. -/
inductive ECGFigure where
  | waveform (leads : List ECGLead)
  | noData
deriving DecidableEq, Repr

/-- The per-row body of `plot_single_user_ecg`: parse the payload, convert
units, read the sample rate (`row.get(SAMPLING_FREQUENCY, default)`), split
into 3 leads; `Except.error` models the `ValueError` numpy raises on an
unparseable token. -/
def rowFigure (row : Row) : Except String ECGFigure :=
  match row.ecgRecording with
  | none => .ok .noData
  | some payload =>
    match parseRecording payload with
    | none => .error ("could not convert string to float: " ++ payload)
    | some parsed =>
      let ecg_array := convertedSamples row parsed
      let sample_rate := row.samplingFrequency.getD DEFAULT_SAMPLE_RATE_VALUE
      .ok (.waveform ((ecgParts ecg_array).map fun ecg =>
        { samples := ecg, sampleRate := sample_rate,
          seconds := (ecg.length : ℚ) / sample_rate }))

/-- The `ECGExplorer` configuration object, fields as set by `__init__`. -/
structure ECGExplorer where
  lwidth : ℚ := DEFAULT_LINE_WIDTH_VALUE
  start_date : Option Int := none
  end_date : Option Int := none
  user_ids : Option (List String) := none
  amplitude_ecg : ℚ := DEFAULT_AMPLITUDE_ECG
  time_ticks : ℚ := DEFAULT_TIME_TICKS
deriving DecidableEq, Repr

/-- `ECGExplorer()` with its `__init__` defaults. -/
def ECGExplorer.init : ECGExplorer := {}

/-- `ECGExplorer.set_date_range` (date strings abstracted to pre-parsed
values, as for `DataExplorer.set_date_range`). -/
def ECGExplorer.set_date_range (self : ECGExplorer)
    (start_date end_date : Option Int) : ECGExplorer :=
  { self with start_date := start_date, end_date := end_date }

/-- `ECGExplorer.set_user_ids`. -/
def ECGExplorer.set_user_ids (self : ECGExplorer) (user_ids : List String) : ECGExplorer :=
  { self with user_ids := some user_ids }

/-- `ECGExplorer.plot_single_user_ecg(user_data, user_id)`: one figure per row,
in row order; a parse failure aborts the call (numpy `ValueError`). -/
def ECGExplorer.plot_single_user_ecg (_self : ECGExplorer) (user_data : List Row)
    (_user_id : String) : Except String (List ECGFigure) :=
  user_data.mapM rowFigure

/-- The row selection inside `plot_ecg_subplots`: rows of the given user,
further restricted to `start_date <= EffectiveDateTime <= end_date` when both
bounds are set (`if self.start_date and self.end_date`). -/
def ECGExplorer.userDataFor (self : ECGExplorer) (df : List Row) (user_id : String) :
    List Row :=
  match self.start_date, self.end_date with
  | some s, some e =>
    df.filter fun r =>
      decide (r.userId = user_id ∧ s ≤ r.effectiveDateTime ∧ r.effectiveDateTime ≤ e)
  | _, _ => df.filter fun r => decide (r.userId = user_id)

/-- The observable outcome of a `plot_ecg_subplots` call: figures and
notices. -/
structure ECGRenderResult where
  figures : List ECGFigure
  notices : List String
deriving DecidableEq, Repr

/-- `ECGExplorer.plot_ecg_subplots(fhir_dataframe)`.  Returned as
`(self, result)`: the method body assigns no attribute of `self`.  Users to
plot: the configured list, else all distinct `UserId`s; per user, filter by
user and date range, emit a notice when nothing remains, else plot every
row. -/
def ECGExplorer.plot_ecg_subplots (self : ECGExplorer) (df : List Row) :
    ECGExplorer × Except String ECGRenderResult :=
  let users_to_plot := match self.user_ids with
    | some l => l
    | none => firstOccurrences (df.map Row.userId)
  (self, do
    let per ← users_to_plot.mapM fun user_id => do
      let user_data := self.userDataFor df user_id
      if user_data.isEmpty then
        pure (([] : List ECGFigure),
          ["No ECG data found for user ID: " ++ user_id ++ " in the given date range"])
      else do
        let figs ← self.plot_single_user_ecg user_data user_id
        pure (figs, ([] : List String))
    pure { figures := per.flatMap Prod.fst, notices := per.flatMap Prod.snd })

/-! ## Selector function -/

/-- The value returned by the selector: one of the two visualizer instances. -/
inductive Visualizer where
  | generic (d : DataExplorer)
  | waveform (e : ECGExplorer)
deriving DecidableEq, Repr

/-- `visualizer_factory(fhir_dataframe)`: a fresh `DataExplorer` for the
plain-observation kind, a fresh `ECGExplorer` for the ECG kind, and a
`ValueError` naming the kind for anything else (`raise ValueError(...)`
modelled as `Except.error`). -/
def visualizer_factory (fhir_dataframe : FHIRDataFrame) : Except String Visualizer :=
  match fhir_dataframe.resource_type with
  | .OBSERVATION => .ok (.generic DataExplorer.init)
  | .ECG_OBSERVATION => .ok (.waveform ECGExplorer.init)
  | rt => .error ("Unsupported resource type: " ++ rt.name)

/-! ## Standalone summary function -/

/-- A cell of the `EffectiveDateTime` column of the raw summary-function input:
either still a raw string or already a parsed datetime.  `parsed s` stands for
the datetime value `pd.to_datetime` derives from `s`. -/
inductive TimeCell where
  | raw (s : String)
  | parsed (s : String)
deriving DecidableEq, Repr

/-- A row of the plain pandas frame handed to `explore_total_records_number`
(columns `UserId`, `LoincCode`, `EffectiveDateTime`). -/
structure PandasRow where
  userId : String
  loincCode : String
  effectiveDateTime : TimeCell
deriving DecidableEq, Repr

/-- Modelled from the spec: pandas `pd.to_datetime` (external library)
normalizes a timestamp cell, turning a raw string into its parsed datetime
value and leaving an already-parsed value alone. -/
def to_datetime : TimeCell → TimeCell
  | .raw s => .parsed s
  | .parsed s => .parsed s

/-- Modelled from the spec: pandas comparison of a (parsed) datetime cell with
inclusive ISO-format string bounds, as in
`(df["EffectiveDateTime"] >= start_date) & (df["EffectiveDateTime"] <= end_date)`
(ISO date strings compare like the dates they denote). -/
def cellInRange (c : TimeCell) (start_date end_date : String) : Bool :=
  match c with
  | .parsed d => decide (start_date ≤ d ∧ d ≤ end_date)
  | .raw _ => false

/-- The grouped counts `df.groupby(["LoincCode", "UserId"]).size()`: one entry
per distinct (code, user) pair with its row count. -/
def groupCounts (rows : List PandasRow) : List ((String × String) × Nat) :=
  (firstOccurrences (rows.map fun r => (r.loincCode, r.userId))).map fun k =>
    (k, (rows.filter fun r => decide ((r.loincCode, r.userId) = k)).length)

/-- `explore_total_records_number(df, start_date, end_date, user_ids)`.
The function returns `None` in Python; its observable effects are (a) the
in-place overwrite `df["EffectiveDateTime"] = pd.to_datetime(...)` on the
caller's frame, performed before any filtering, and (b) the rendered bar
chart of grouped counts.  The embedding returns the caller's frame after the
call together with the chart data.  The date and user filters rebind the
local name only. -/
def explore_total_records_number (df : List PandasRow)
    (start_date end_date : Option String) (user_ids : Option (List String)) :
    List PandasRow × List ((String × String) × Nat) :=
  let df0 := df.map fun r => { r with effectiveDateTime := to_datetime r.effectiveDateTime }
  let df1 := match start_date, end_date with
    | some s, some e => df0.filter fun r => cellInRange r.effectiveDateTime s e
    | _, _ => df0
  let df2 := match user_ids with
    | some uids => df1.filter fun r => uids.contains r.userId
    | none => df1
  (df0, groupCounts df2)

/-! ## Helper lemmas -/

theorem duplicatedAny_eq_true_iff {α : Type} [DecidableEq α] (l : List α) :
    duplicatedAny l = true ↔ ¬ l.Nodup := by
  induction l with
  | nil => simp [duplicatedAny]
  | cons x xs ih =>
    have hc : (xs.contains x = true) ↔ x ∈ xs := List.elem_iff
    simp only [duplicatedAny, Bool.or_eq_true, hc, ih, List.nodup_cons]
    tauto

theorem firstOccurrencesGo_all_eq {α : Type} [DecidableEq α] (c : α) :
    ∀ (xs seen : List α), (∀ a ∈ xs, a = c) →
      firstOccurrencesGo xs seen = if xs ≠ [] ∧ ¬ seen.contains c then [c] else [] := by
  intro xs
  induction xs with
  | nil => intro seen _; simp [firstOccurrencesGo]
  | cons x rest ih =>
    intro seen h
    have hx : x = c := h x (by simp)
    subst hx
    have hrest : ∀ a ∈ rest, a = x := fun a ha => h a (List.mem_cons_of_mem _ ha)
    by_cases hmem : x ∈ seen
    · have hs : seen.contains x = true := List.elem_iff.mpr hmem
      rw [firstOccurrencesGo, if_pos hs, ih seen hrest]
      simp [hmem]
    · have hs : seen.contains x = false := by
        rcases hb : seen.contains x with _ | _
        · rfl
        · exact absurd (List.elem_iff.mp hb) hmem
      have hself : (x :: seen).contains x = true := List.elem_iff.mpr (by simp)
      rw [firstOccurrencesGo, if_neg (by simpa using hmem), ih (x :: seen) hrest]
      simp [hmem, hself]

theorem firstOccurrences_all_eq {α : Type} [DecidableEq α] (c : α) (l : List α)
    (h : ∀ a ∈ l, a = c) (hne : l ≠ []) : firstOccurrences l = [c] := by
  unfold firstOccurrences
  rw [firstOccurrencesGo_all_eq c l [] h]
  simp [hne]

theorem plot_data_based_on_condition_user (l : List Row) (u : String) :
    (plot_data_based_on_condition l u).user = u := by
  unfold plot_data_based_on_condition
  split <;> rfl

theorem plot_data_based_on_condition_rows (l : List Row) (u : String) :
    (plot_data_based_on_condition l u).rows = l := by
  unfold plot_data_based_on_condition
  split <;> rfl

theorem map_samples_mk (l : List (List ℚ)) (rate : ℚ) :
    (l.map fun ecg =>
        ({ samples := ecg, sampleRate := rate,
           seconds := (ecg.length : ℚ) / rate } : ECGLead)).map ECGLead.samples = l := by
  induction l with
  | nil => rfl
  | cons a l ih => simp [ih]

theorem length_flatMap_fst_singleton {α β γ : Type} (l : List α) (f : α → β) (g : α → List γ) :
    ((l.map fun a => ([f a], g a)).flatMap Prod.fst).length = l.length := by
  induction l with
  | nil => rfl
  | cons a l ih => simpa using ih

/-! ## Claim theorems -/

/-- **C1**: a recording of length `L` is split into exactly 3 contiguous
segments of length `L / 3` each, consuming the first `3 * (L / 3)` samples in
order with the trailing remainder dropped; the payload `"1 2 3 4 5 6"` parses
to `[1, 2, 3, 4, 5, 6]` and yields segments `[1, 2]`, `[3, 4]`, `[5, 6]`. -/
theorem ecg_split_three_equal_segments (xs : List ℚ) :
    (ecgParts xs).length = 3 ∧
    (∀ p ∈ ecgParts xs, p.length = xs.length / 3) ∧
    (ecgParts xs).flatten = xs.take (3 * (xs.length / 3)) ∧
    3 * (xs.length / 3) ≤ xs.length ∧
    parseRecording "1 2 3 4 5 6" = some [1, 2, 3, 4, 5, 6] ∧
    ecgParts [1, 2, 3, 4, 5, 6] = [[1, 2], [3, 4], [5, 6]] := by
  refine ⟨?_, ?_, ?_, by omega, by decide, by decide⟩
  · simp [ecgParts]
  · intro p hp
    simp only [ecgParts, List.mem_map, List.mem_range] at hp
    obtain ⟨i, hi3, rfl⟩ := hp
    simp only [List.length_take, List.length_drop]
    interval_cases i <;> omega
  · have h3 : List.range 3 = [0, 1, 2] := rfl
    simp only [ecgParts, h3, List.map_cons, List.map_nil, List.append_nil,
      Nat.zero_mul, Nat.one_mul, List.drop_zero]
    rw [show 3 * (xs.length / 3) = xs.length / 3 + (xs.length / 3 + xs.length / 3) by ring,
      List.take_add, List.take_add, List.drop_drop, two_mul]
    simp

/-- **C2**: scatter rendering is selected iff the group's timestamps contain a
duplicate, bar rendering iff they are pairwise distinct. -/
theorem scatter_iff_duplicate_timestamps (user_df : List Row) (user_id : String) :
    ((plot_data_based_on_condition user_df user_id).plotType = "scatter" ↔
      ¬ (user_df.map Row.effectiveDateTime).Nodup) ∧
    ((plot_data_based_on_condition user_df user_id).plotType = "bar" ↔
      (user_df.map Row.effectiveDateTime).Nodup) := by
  have hdup := duplicatedAny_eq_true_iff (user_df.map Row.effectiveDateTime)
  by_cases h : duplicatedAny (user_df.map Row.effectiveDateTime) = true
  · have hnd := hdup.mp h
    simp [plot_data_based_on_condition, h, hnd]
  · have hnd : (user_df.map Row.effectiveDateTime).Nodup := by
      by_contra hc
      exact h (hdup.mpr hc)
    simp [plot_data_based_on_condition, h, hnd]

/-- **C3**: the selector returns a fresh `DataExplorer` for the
plain-observation kind, a fresh `ECGExplorer` for the ECG kind, and an
unsupported-kind error naming the kind for every other kind value. -/
theorem visualizer_factory_dispatch (d : FHIRDataFrame) :
    (d.resource_type = FHIRResourceType.OBSERVATION →
      visualizer_factory d = .ok (.generic DataExplorer.init)) ∧
    (d.resource_type = FHIRResourceType.ECG_OBSERVATION →
      visualizer_factory d = .ok (.waveform ECGExplorer.init)) ∧
    (d.resource_type ≠ FHIRResourceType.OBSERVATION →
      d.resource_type ≠ FHIRResourceType.ECG_OBSERVATION →
      visualizer_factory d =
        .error ("Unsupported resource type: " ++ d.resource_type.name)) := by
  obtain ⟨df, rt⟩ := d
  cases rt <;> simp [visualizer_factory]

/-- Witness for `visualizer_factory_dispatch` at the three concrete kinds. -/
theorem visualizer_factory_dispatch_witness :
    visualizer_factory { df := [], resource_type := .OBSERVATION } =
      .ok (.generic DataExplorer.init) ∧
    visualizer_factory { df := [], resource_type := .ECG_OBSERVATION } =
      .ok (.waveform ECGExplorer.init) ∧
    visualizer_factory { df := [], resource_type := .QUESTIONNAIRE_RESPONSE } =
      .error ("Unsupported resource type: " ++
        FHIRResourceType.name .QUESTIONNAIRE_RESPONSE) :=
  ⟨(visualizer_factory_dispatch _).1 rfl,
   (visualizer_factory_dispatch _).2.1 rfl,
   (visualizer_factory_dispatch _).2.2 (by decide) (by decide)⟩

/-- **C4**: a row declared in microvolt units has every parsed sample divided by
exactly 1000 before rendering; a row declared in millivolt units reaches
rendering unchanged (the rendered leads are the 3-way split of the converted
samples). -/
theorem ecg_unit_conversion (row : Row) (payload : String) (xs : List ℚ)
    (hrec : row.ecgRecording = some payload)
    (hparse : parseRecording payload = some xs) :
    (row.ecgRecordingUnit = ECG_MICROVOLT_UNIT →
      ∃ leads, rowFigure row = .ok (.waveform leads) ∧
        leads.map ECGLead.samples = ecgParts (xs.map fun v => v / 1000)) ∧
    (row.ecgRecordingUnit = ECG_MILLIVOLT_UNIT →
      ∃ leads, rowFigure row = .ok (.waveform leads) ∧
        leads.map ECGLead.samples = ecgParts xs) := by
  have hfig : rowFigure row =
      .ok (.waveform ((ecgParts (convertedSamples row xs)).map fun ecg =>
        { samples := ecg,
          sampleRate := row.samplingFrequency.getD DEFAULT_SAMPLE_RATE_VALUE,
          seconds :=
            (ecg.length : ℚ) / row.samplingFrequency.getD DEFAULT_SAMPLE_RATE_VALUE })) := by
    simp [rowFigure, hrec, hparse]
  constructor <;> intro hu <;>
    exact ⟨_, hfig, by
      rw [map_samples_mk]
      simp [convertedSamples, hu, ECG_MICROVOLT_UNIT, ECG_MILLIVOLT_UNIT]⟩

/-- Witness for `ecg_unit_conversion`: one concrete microvolt row and one
concrete millivolt row. -/
theorem ecg_unit_conversion_witness :
    (∃ leads,
      rowFigure { userId := "u", loincCode := "c", effectiveDateTime := 0,
                  ecgRecording := some "1000 2000 3000", ecgRecordingUnit := "uV" } =
        .ok (.waveform leads) ∧
      leads.map ECGLead.samples =
        ecgParts (([1000, 2000, 3000] : List ℚ).map fun v => v / 1000)) ∧
    (∃ leads,
      rowFigure { userId := "u", loincCode := "c", effectiveDateTime := 0,
                  ecgRecording := some "1 2 3", ecgRecordingUnit := "mV" } =
        .ok (.waveform leads) ∧
      leads.map ECGLead.samples = ecgParts ([1, 2, 3] : List ℚ)) :=
  ⟨(ecg_unit_conversion _ "1000 2000 3000" [1000, 2000, 3000] rfl (by decide)).1 rfl,
   (ecg_unit_conversion _ "1 2 3" [1, 2, 3] rfl (by decide)).2 rfl⟩

/-- **C5**: with both date bounds set, the waveform visualizer selects for an
identifier exactly the rows of that identifier whose timestamp lies in the
inclusive range `[start, end]`. -/
theorem ecg_date_range_filter (lw amp tt : ℚ) (uids : Option (List String))
    (df : List Row) (user_id : String) (s e : Int) (r : Row) :
    r ∈ ECGExplorer.userDataFor
        { lwidth := lw, start_date := some s, end_date := some e,
          user_ids := uids, amplitude_ecg := amp, time_ticks := tt } df user_id ↔
      r ∈ df ∧ r.userId = user_id ∧ s ≤ r.effectiveDateTime ∧ r.effectiveDateTime ≤ e := by
  simp [ECGExplorer.userDataFor, List.mem_filter]

theorem isEmpty_false_of_ne_nil {α : Type} {l : List α} (h : l ≠ []) : l.isEmpty = false := by
  cases l with
  | nil => exact absurd rfl h
  | cons a l => rfl

/-- **C6** counterexample: with a single row for identifier "A" and the
identifier list `["A", "B"]`, the combined figure still contains a plot call
for "B" although "B" has no rows in the group — no identifier is skipped. -/
theorem plot_combined_empty_identifier_not_skipped :
    ¬ (∀ c ∈ (DataExplorer.init.plot_combined
          [{ userId := "A", loincCode := "X", effectiveDateTime := 0 }]
          ["A", "B"]).calls, c.user ≠ "B") := by
  decide

/-- **C6** (amended): in combine mode one figure per code group is rendered,
holding one plot call per identifier in the configured list, in order;
identifiers with no rows in the group are *not* skipped — they receive a call
carrying the empty row list (rendered as an empty bar series). -/
theorem plot_combined_one_call_per_identifier (self : DataExplorer)
    (df_loinc : List Row) (users : List String) :
    ((self.plot_combined df_loinc users).calls.map PlotCall.user = users) ∧
    (∀ c ∈ (self.plot_combined df_loinc users).calls,
      c.rows = df_loinc.filter fun r => decide (r.userId = c.user)) ∧
    (∀ c ∈ (self.plot_combined df_loinc users).calls,
      (∀ r ∈ df_loinc, r.userId ≠ c.user) → c.rows = [] ∧ c.plotType = "bar") ∧
    (∀ input : List Row, self.combine_plots = true →
      (self.resolveDateFilter input).isEmpty = false →
      (self.create_static_plot input).2.figures.length =
        (firstOccurrences ((self.resolveDateFilter input).map Row.loincCode)).length) := by
  refine ⟨?_, ?_, ?_, ?_⟩
  · show ((users.map fun user_id => plot_data_based_on_condition
        (df_loinc.filter fun r => decide (r.userId = user_id)) user_id).map PlotCall.user) =
      users
    rw [List.map_map]
    have hcomp : (PlotCall.user ∘ fun user_id => plot_data_based_on_condition
        (df_loinc.filter fun r => decide (r.userId = user_id)) user_id) = fun u => u :=
      funext fun u => plot_data_based_on_condition_user _ _
    rw [hcomp]
    exact List.map_id' users
  · intro c hc
    simp only [DataExplorer.plot_combined, Figure.calls, List.mem_map] at hc
    obtain ⟨u, _, rfl⟩ := hc
    rw [plot_data_based_on_condition_rows, plot_data_based_on_condition_user]
  · intro c hc hnone
    simp only [DataExplorer.plot_combined, Figure.calls, List.mem_map] at hc
    obtain ⟨u, _, rfl⟩ := hc
    rw [plot_data_based_on_condition_user] at hnone
    have hfil : (df_loinc.filter fun r => decide (r.userId = u)) = [] := by
      rw [List.filter_eq_nil_iff]
      intro r hr
      simpa using hnone r hr
    refine ⟨?_, ?_⟩
    · rw [plot_data_based_on_condition_rows, hfil]
    · show (plot_data_based_on_condition
        (df_loinc.filter fun r => decide (r.userId = u)) u).plotType = "bar"
      rw [hfil]
      rfl
  · intro input hcomb hne
    simp only [DataExplorer.create_static_plot, hne, Bool.false_eq_true, if_false, hcomb,
      if_true]
    exact length_flatMap_fst_singleton _ _ _

/-- Witness for `plot_combined_one_call_per_identifier` on a concrete group. -/
theorem plot_combined_one_call_per_identifier_witness :
    ((DataExplorer.init.plot_combined
        [{ userId := "A", loincCode := "X", effectiveDateTime := 0 }] ["A", "B"]).calls.map
      PlotCall.user = ["A", "B"]) ∧
    (DataExplorer.init.create_static_plot
        [{ userId := "A", loincCode := "X", effectiveDateTime := 0 }]).2.figures.length =
      (firstOccurrences ((DataExplorer.init.resolveDateFilter
        [{ userId := "A", loincCode := "X", effectiveDateTime := 0 }]).map
          Row.loincCode)).length :=
  ⟨(plot_combined_one_call_per_identifier DataExplorer.init
      [{ userId := "A", loincCode := "X", effectiveDateTime := 0 }] ["A", "B"]).1,
   (plot_combined_one_call_per_identifier DataExplorer.init
      [{ userId := "A", loincCode := "X", effectiveDateTime := 0 }] ["A", "B"]).2.2.2
     [{ userId := "A", loincCode := "X", effectiveDateTime := 0 }] rfl (by decide)⟩

/-- **C7**: on a nonempty dataset with the single code "X", combine mode on
returns exactly one figure; combine mode off with identifiers `["A", "B"]`
returns two figures when both identifiers have rows, and one figure together
with a skip notice when "B" has none. -/
theorem create_static_plot_two_user_figure_counts (df : List Row)
    (hne : df ≠ []) (hX : ∀ r ∈ df, r.loincCode = "X") :
    ((DataExplorer.init.create_static_plot df).2.figures.length = 1) ∧
    ((∃ r ∈ df, r.userId = "A") → (∃ r ∈ df, r.userId = "B") →
      (((DataExplorer.init.set_combine_plots false).set_user_ids
          ["A", "B"]).create_static_plot df).2.figures.length = 2) ∧
    ((∃ r ∈ df, r.userId = "A") → (∀ r ∈ df, r.userId ≠ "B") →
      (((DataExplorer.init.set_combine_plots false).set_user_ids
          ["A", "B"]).create_static_plot df).2.figures.length = 1 ∧
      "No data found for user ID B and LOINC code X." ∈
        (((DataExplorer.init.set_combine_plots false).set_user_ids
            ["A", "B"]).create_static_plot df).2.notices) := by
  have hempty : df.isEmpty = false := isEmpty_false_of_ne_nil hne
  have hcodes : firstOccurrences (df.map Row.loincCode) = ["X"] := by
    apply firstOccurrences_all_eq
    · intro a ha
      obtain ⟨r, hr, rfl⟩ := List.mem_map.mp ha
      exact hX r hr
    · simpa using hne
  have hdfX : (df.filter fun r => decide (r.loincCode = "X")) = df := by
    rw [List.filter_eq_self]
    intro r hr
    simpa using hX r hr
  refine ⟨?_, ?_, ?_⟩
  · simp [DataExplorer.create_static_plot, DataExplorer.resolveDateFilter,
      DataExplorer.init, hempty, hcodes, hdfX]
  · intro hA hB
    obtain ⟨ra, hra, hrau⟩ := hA
    obtain ⟨rb, hrb, hrbu⟩ := hB
    have hA' : ¬ (∀ a ∈ df, a.userId = "A" → ¬ a.loincCode = "X") :=
      fun hall => hall ra hra hrau (hX ra hra)
    have hB' : ¬ (∀ a ∈ df, a.userId = "B" → ¬ a.loincCode = "X") :=
      fun hall => hall rb hrb hrbu (hX rb hrb)
    simp only [DataExplorer.create_static_plot, DataExplorer.resolveDateFilter,
      DataExplorer.init, DataExplorer.set_combine_plots, DataExplorer.set_user_ids,
      DataExplorer.plot_individual, hempty, hcodes, hdfX]
    simp [hempty, hcodes, hdfX]
    rw [if_neg hA', if_neg hB']
    rfl
  · intro hA hBnone
    obtain ⟨ra, hra, hrau⟩ := hA
    have hA' : ¬ (∀ a ∈ df, a.userId = "A" → ¬ a.loincCode = "X") :=
      fun hall => hall ra hra hrau (hX ra hra)
    have hB' : ∀ a ∈ df, a.userId = "B" → ¬ a.loincCode = "X" :=
      fun a ha hb => (hBnone a ha hb).elim
    constructor
    · simp [DataExplorer.create_static_plot, DataExplorer.resolveDateFilter,
        DataExplorer.init, DataExplorer.set_combine_plots, DataExplorer.set_user_ids,
        DataExplorer.plot_individual, hempty, hcodes, hdfX]
      rw [if_neg hA', if_pos hB']
      rfl
    · simp [DataExplorer.create_static_plot, DataExplorer.resolveDateFilter,
        DataExplorer.init, DataExplorer.set_combine_plots, DataExplorer.set_user_ids,
        DataExplorer.plot_individual, hempty, hcodes, hdfX]
      rw [if_neg hA', if_pos hB']
      simp

/-- Witness for `create_static_plot_two_user_figure_counts` on a concrete
two-identifier dataset. -/
theorem create_static_plot_two_user_figure_counts_witness :
    ((DataExplorer.init.create_static_plot
        [{ userId := "A", loincCode := "X", effectiveDateTime := 0 },
         { userId := "B", loincCode := "X", effectiveDateTime := 1 }]).2.figures.length = 1) ∧
    (((DataExplorer.init.set_combine_plots false).set_user_ids
        ["A", "B"]).create_static_plot
        [{ userId := "A", loincCode := "X", effectiveDateTime := 0 },
         { userId := "B", loincCode := "X", effectiveDateTime := 1 }]).2.figures.length = 2 := by
  have h := create_static_plot_two_user_figure_counts
    [{ userId := "A", loincCode := "X", effectiveDateTime := 0 },
     { userId := "B", loincCode := "X", effectiveDateTime := 1 }] (by decide) (by decide)
  exact ⟨h.1, h.2.1 (by decide) (by decide)⟩

/-- **C8**: when the date-filtered dataset is empty, `create_static_plot`
returns normally with the no-data notice and an empty figure list. -/
theorem create_static_plot_empty_filtered (uids : Option (List String))
    (yl yu : Option ℚ) (cb : Bool) (df : List Row) (s e : Int)
    (h : select_data_by_dates df s e = []) :
    DataExplorer.create_static_plot
        { start_date := some s, end_date := some e, user_ids := uids,
          y_lower := yl, y_upper := yu, combine_plots := cb } df =
      ({ start_date := some s, end_date := some e, user_ids := uids,
         y_lower := yl, y_upper := yu, combine_plots := cb },
       { figures := [], notices := ["No data for the selected date range."] }) := by
  simp [DataExplorer.create_static_plot, DataExplorer.resolveDateFilter, h]

/-- Witness for `create_static_plot_empty_filtered`: a row at timestamp 5 and
the range `[10, 20]`. -/
theorem create_static_plot_empty_filtered_witness :
    DataExplorer.create_static_plot
        { start_date := some (10 : Int), end_date := some 20, user_ids := none,
          y_lower := none, y_upper := none, combine_plots := true }
        [{ userId := "u", loincCode := "c", effectiveDateTime := 5 }] =
      ({ start_date := some (10 : Int), end_date := some 20, user_ids := none,
         y_lower := none, y_upper := none, combine_plots := true },
       { figures := [], notices := ["No data for the selected date range."] }) :=
  create_static_plot_empty_filtered none none none true
    [{ userId := "u", loincCode := "c", effectiveDateTime := 5 }] 10 20 (by decide)

/-- **C9**: a render call of either visualizer leaves every configuration field
unchanged (the returned receiver equals the one passed in) and carries no
state into a subsequent render call: re-rendering with the returned receiver
and the same dataset yields the identical result. -/
theorem render_is_stateless (d : DataExplorer) (input : List Row)
    (e : ECGExplorer) (df : List Row) :
    (d.create_static_plot input).1 = d ∧
    (e.plot_ecg_subplots df).1 = e ∧
    ((d.create_static_plot input).1.create_static_plot input).2 =
      (d.create_static_plot input).2 ∧
    ((e.plot_ecg_subplots df).1.plot_ecg_subplots df).2 = (e.plot_ecg_subplots df).2 := by
  have h1 : (d.create_static_plot input).1 = d := by
    simp only [DataExplorer.create_static_plot]
    split <;> rfl
  refine ⟨h1, rfl, ?_, rfl⟩
  rw [h1]

/-- **C10**: the standalone summary function overwrites the caller's timestamp
column with its parsed-datetime version before any filtering: the caller's
frame after the call is the re-timestamped frame — even when the date filter
excludes every row from the chart — and on a raw-timestamp frame the result
differs from the input. -/
theorem explore_total_records_number_mutates_input (df : List PandasRow)
    (start_date end_date : Option String) (user_ids : Option (List String)) :
    ((explore_total_records_number df start_date end_date user_ids).1 =
      df.map fun r => { r with effectiveDateTime := to_datetime r.effectiveDateTime }) ∧
    ((explore_total_records_number
        [{ userId := "u", loincCode := "c", effectiveDateTime := TimeCell.raw "2024-01-01" }]
        (some "2030-01-01") (some "2030-12-31") none).1 =
      [{ userId := "u", loincCode := "c",
         effectiveDateTime := TimeCell.parsed "2024-01-01" }]) ∧
    ([{ userId := "u", loincCode := "c",
        effectiveDateTime := TimeCell.parsed "2024-01-01" }] ≠
      ([{ userId := "u", loincCode := "c",
          effectiveDateTime := TimeCell.raw "2024-01-01" }] : List PandasRow)) :=
  ⟨rfl, rfl, by decide⟩

end SpeziViz
